import Mathlib

/-!
Verification development for the medication-reminder call system.

This file gives a shallow embedding, in Lean, of the conversation turn
engine (the POST /handle-speech webhook handler), the Gemini text
generation service (generateLlmResponse), and the Twilio/Deepgram
transcription bridge (websocketHandler.js), and proves properties of the
embedded code.

External collaborators (the Gemini chat session, the ElevenLabs TTS call,
Firebase logging, the Deepgram socket) are modelled as oracle parameters:
the embedded functions are parametric in the value those collaborators
return, exactly as the JavaScript handlers are parametric in the value the
awaited network calls resolve to.
-/

namespace MedReminder

/-! ## JavaScript string primitives, modelled on lists of characters -/

/-- Drop leading whitespace characters from a character list. -/
def dropLeadingWs : List Char → List Char
  | [] => []
  | c :: cs => if c.isWhitespace then dropLeadingWs cs else c :: cs

/-- Trim whitespace from both ends of a character list. -/
def trimList (l : List Char) : List Char :=
  ((dropLeadingWs ((dropLeadingWs l).reverse)).reverse)

/-- Model of JavaScript String.prototype.trim. -/
def jsTrim (s : String) : String :=
  String.mk (trimList s.data)

/-- Boolean test that the first list is an initial segment of the second. -/
def isPrefixList : List Char → List Char → Bool
  | [], _ => true
  | _ :: _, [] => false
  | p :: ps, c :: cs => p = c && isPrefixList ps cs

/-- Boolean test that `pat` occurs as a contiguous sublist of `l`. -/
def containsList (pat : List Char) : List Char → Bool
  | [] => isPrefixList pat []
  | c :: cs => isPrefixList pat (c :: cs) || containsList pat cs

/-- Model of JavaScript String.prototype.includes (case sensitive). -/
def jsIncludes (s pat : String) : Bool :=
  containsList pat.data s.data

/-- Replace the first occurrence of `pat` by `rep` in `l`; unchanged when
`pat` does not occur. Models the one-shot semantics of JavaScript
String.prototype.replace with a string (non-regex) pattern. -/
def replaceFirstList (pat rep : List Char) : List Char → List Char
  | [] => if isPrefixList pat [] then rep else []
  | c :: cs =>
    if isPrefixList pat (c :: cs) then rep ++ (c :: cs).drop pat.length
    else c :: replaceFirstList pat rep cs

/-- Model of JavaScript s.replace(pat, rep) with a plain string pattern:
only the first occurrence is replaced. -/
def jsReplaceFirst (s pat rep : String) : String :=
  String.mk (replaceFirstList pat.data rep.data s.data)

/-- Value of the longest decimal-digit prefix, accumulator style. -/
def digitsVal : List Char → Nat → Nat
  | [], acc => acc
  | c :: cs, acc => if c.isDigit then digitsVal cs (acc * 10 + (c.toNat - 48)) else acc

/-- True when the list starts with a decimal digit. -/
def hasDigitHead : List Char → Bool
  | [] => false
  | c :: _ => c.isDigit

/-- Model of JavaScript parseInt(s, 10): skip leading whitespace, read an
optional sign and then the longest digit prefix; `none` models NaN (no
digit available). -/
def parseIntList (l : List Char) : Option Int :=
  match dropLeadingWs l with
  | '-' :: rest => if hasDigitHead rest then some (-(digitsVal rest 0 : Int)) else none
  | '+' :: rest => if hasDigitHead rest then some ((digitsVal rest 0 : Int)) else none
  | rest => if hasDigitHead rest then some ((digitsVal rest 0 : Int)) else none

/-- Model of JavaScript parseInt(s, 10) on a Lean string. -/
def parseIntJs (s : String) : Option Int :=
  parseIntList s.data

/-! ## Data model: conversation history and the call-history map

Source: `const callHistories = new Map();` in the webhook router
(src/unnamed/part_007). Each entry maps a Twilio CallSid to the Gemini
conversation history, a list of role/text records (each history entry in
the source carries exactly one parts[0].text). The `lastUpdated` field of
the stored object is never read by any branch the claims mention, so the
embedding stores only the history list. -/

/-- One Gemini chat history record, a role plus the text of its single
part. -/
structure ChatMsg where
  role : String
  text : String
deriving DecidableEq, Repr

/-- The in-memory callHistories map, as an association list from CallSid
to conversation history. -/
abbrev CallHistories := List (String × List ChatMsg)

/-- Lookup of a call history by CallSid (Map.prototype.get). -/
def getHist : CallHistories → String → Option (List ChatMsg)
  | [], _ => none
  | (k, v) :: rest, sid => if k = sid then some v else getHist rest sid

/-- Removal of a call history by CallSid (Map.prototype.delete). -/
def delHist (hs : CallHistories) (sid : String) : CallHistories :=
  hs.filter (fun p => p.1 ≠ sid)

/-- Insertion or replacement of a call history (Map.prototype.set). -/
def setHist (hs : CallHistories) (sid : String) (h : List ChatMsg) : CallHistories :=
  (sid, h) :: delHist hs sid

/-- Turn number computed at the start of a /handle-speech invocation:
`Math.floor(currentHistory.length / 2) + 1`, with an empty history on
lookup miss (part_007 lines 922-931). -/
def turnNumberOf (hs : CallHistories) (sid : String) : Nat :=
  ((getHist hs sid).getD []).length / 2 + 1

/-! ## Constants of the turn engine (part_007 lines 595-602) -/

/-- Maximum number of retries if no speech is detected in a turn. -/
def MAX_RETRIES : Int := 2

/-- Maximum number of conversation turns before ending the call. -/
def MAX_CONVERSATION_TURNS : Nat := 10

/-- Final message played when the conversation reaches the turn limit. -/
def FINAL_CLOSING_MESSAGE : String :=
  "We seem to have reached the end of our time for this call. If you have any further questions, please consult your doctor or pharmacist. Goodbye."

/-! ## The conversation turn engine: POST /handle-speech -/

/-- Result of the generative-text collaborator `generateLlmResponse`:
the generated text and the updated conversation history. -/
structure LlmResult where
  llmText : String
  updatedHistory : List ChatMsg
deriving DecidableEq, Repr

/-- The TwiML directive the handler answers with. `retry` abstracts the
say-reprompt plus gather whose action URL carries `retry=nextRetry`;
`respond` abstracts play-or-say of `spokenText` (`audioUrl = some u`
renders as Play u, `none` as Say spokenText) followed by Hangup when
`hangup` is true and by a gather for the next turn otherwise. -/
inductive Directive where
  | retry (nextRetry : Int) (prompt : String)
  | respond (spokenText : String) (audioUrl : Option String) (hangup : Bool)
deriving DecidableEq, Repr

/-- True exactly on re-prompt (retry) directives. -/
def Directive.isRetry : Directive → Bool
  | .retry _ _ => true
  | .respond _ _ _ => false

/-- The spoken text carried by a directive. -/
def Directive.spoken : Directive → String
  | .retry _ p => p
  | .respond t _ _ => t

/-- The hangup flag of a directive; retry directives never hang up
within the branch that emits them. -/
def Directive.hangs : Directive → Bool
  | .retry _ _ => false
  | .respond _ _ h => h

/-- Retry counter parsed from the request query: parseInt with radix 10
of req.query.retry after defaulting an absent or empty parameter to the
zero digit; an absent parameter is modelled as the empty string, and
`none` models NaN. -/
def effRetry (retryQuery : String) : Option Int :=
  parseIntJs (if retryQuery = "" then "0" else retryQuery)

/-- Guard of the retry branch:
`!SpeechResult && currentRetry < MAX_RETRIES`. A NaN counter compares
false, exactly as in JavaScript. -/
def retryGuard (speechResult retryQuery : String) : Bool :=
  speechResult = "" &&
    (match effRetry retryQuery with
     | some r => decide (r < MAX_RETRIES)
     | none => false)

/-- Text handed to the generative collaborator: logData.speechResult
starts as the SpeechResult when non-empty and the plain no-speech
sentinel otherwise, and is overwritten with the max-retries sentinel
when speech is empty and currentRetry is at least MAX_RETRIES (a NaN
counter again compares false). -/
def speechForLlm (speechResult retryQuery : String) : String :=
  if speechResult = "" then
    (match effRetry retryQuery with
     | some r => if MAX_RETRIES ≤ r then "[Max retries - No speech detected]" else "[No speech detected]"
     | none => "[No speech detected]")
  else speechResult

/-- Termination decision before the empty-text fallback (part_007 lines
1002-1021): the turn-limit override, else the HANGUPNOW sentinel branch
with first-occurrence stripping plus trim, else continue with the
collaborator text. Returns (spokenText, hangup). -/
def spokenCandidate (llmText : String) (turnNumber : Nat) : String × Bool :=
  if MAX_CONVERSATION_TURNS ≤ turnNumber then (FINAL_CLOSING_MESSAGE, true)
  else if llmText ≠ "" && jsIncludes llmText "HANGUPNOW" then
    (jsTrim (jsReplaceFirst llmText "HANGUPNOW" ""), true)
  else (llmText, false)

/-- Spoken text and hangup flag after the empty-spoken-text fallback
(part_007 lines 1023-1035). -/
def decideSpoken (llmText : String) (turnNumber : Nat) : String × Bool :=
  let p := spokenCandidate llmText turnNumber
  if p.1 = "" then
    ((if p.2 then "Okay. Thank you, goodbye."
      else "Sorry, I encountered an issue processing that request. Could you try again?"),
     if llmText = "HANGUPNOW" then true else p.2)
  else p

/-- TwiML construction of the generation path (part_007 lines 1039-1083):
TTS is attempted on the non-empty spoken text (the oracle `tts` returns
`some url` on success and `none` when `elevenLabsTextToSpeech` fails and
the catch falls back to Say); the unreachable no-text safeguard branch is
modelled faithfully. -/
def buildDirective (llmText : String) (turnNumber : Nat) (tts : String → Option String) :
    Directive :=
  let sp := decideSpoken llmText turnNumber
  match (if sp.1 ≠ "" then tts sp.1 else none) with
  | some url => .respond sp.1 (some url) sp.2
  | none =>
    if sp.1 ≠ "" then .respond sp.1 none sp.2
    else .respond "An unexpected error occurred. Goodbye." none true

/-- The generation path of /handle-speech: consult the collaborator,
store its updated history, build the directive, and delete the history
entry when hanging up (part_007 lines 974-1117). -/
def generateBranch (llm : String → List ChatMsg → LlmResult) (tts : String → Option String)
    (hs : CallHistories) (callSid : String) (speechText : String) :
    Directive × CallHistories :=
  let hist := (getHist hs callSid).getD []
  let turnNumber := hist.length / 2 + 1
  let gen := llm speechText hist
  let d := buildDirective gen.llmText turnNumber tts
  let hs1 := setHist hs callSid gen.updatedHistory
  (d, if d.hangs then delHist hs1 callSid else hs1)

/-- Shallow embedding of the POST /handle-speech handler (non-exception
path), parametric in the generative-text oracle `llm` and the TTS oracle
`tts`. Returns the TwiML directive and the callHistories map after the
invocation. -/
def handleSpeech (llm : String → List ChatMsg → LlmResult) (tts : String → Option String)
    (hs : CallHistories) (callSid speechResult retryQuery : String) :
    Directive × CallHistories :=
  if retryGuard speechResult retryQuery then
    (.retry ((effRetry retryQuery).getD 0 + 1)
       "Sorry, I didn\x27t hear anything. Could you please repeat that?", hs)
  else
    generateBranch llm tts hs callSid (speechForLlm speechResult retryQuery)

/-- The catch block of /handle-speech (part_007 lines 1130-1163): on any
uncaught error the handler answers with an apology-and-hangup directive
and then executes `callHistories.delete(CallSid)`. -/
def handleSpeechCatchBlock (hs : CallHistories) (sid : String) :
    Directive × CallHistories :=
  (.respond "I encountered an unexpected problem. Apologies. Please call back later. Goodbye."
      none true,
   delHist hs sid)

/-- Iterated non-retry turns of one call: `runTurns llm tts sid sp k hs`
performs `k` consecutive /handle-speech invocations for `sid`, the
i-th with utterance `sp i` and retry query "0", threading the
callHistories state. -/
def runTurns (llm : String → List ChatMsg → LlmResult) (tts : String → Option String)
    (sid : String) (sp : Nat → String) : Nat → CallHistories → CallHistories
  | 0, hs => hs
  | Nat.succ k, hs =>
    (handleSpeech llm tts (runTurns llm tts sid sp k hs) sid (sp k) "0").2

/-! ## The generative-text service: generateLlmResponse
(src/src/services/elevenLabsService.js lines 233-361) -/

/-- The fixed refusal message FACTUAL_DATA.REFUSAL_MSG. -/
def REFUSAL_MSG : String :=
  "I can only provide basic information about your Aspirin, Cardivol, and Metformin dosage, frequency, form, storage, refills, or the nearest pharmacy location, hours, and phone number. For any other medical questions or advice, please consult your doctor or pharmacist."

/-- Outcome of the awaited Gemini chat exchange, as an oracle.
`apiThrow` models any exception escaping the try block (API error,
network failure, SDK failure). `apiOk extractedText blockReason
chatHistory` models a delivered result: `extractedText` is the value of
`result.candidates[0].content.parts[0].text` (`none` when the optional
chain is undefined), `blockReason` the value of
`result.promptFeedback.blockReason || result.candidates[0].finishReason`
(`none` when that is undefined), and `chatHistory` the value
`chat.getHistory()` reports after the exchange. -/
inductive ChatOutcome where
  | apiThrow
  | apiOk (extractedText : Option String) (blockReason : Option String)
      (chatHistory : List ChatMsg)
deriving DecidableEq, Repr

/-- The user utterance actually sent: the speech text when non-empty and
the no-speech sentinel otherwise. -/
def attemptedUtterance (speechText : String) : String :=
  if speechText = "" then "[No speech detected]" else speechText

/-- History returned by the two fallback paths (missing API key and
catch): the input history extended with the attempted user utterance and
the fallback model reply. -/
def fallbackHistory (speechText : String) (history : List ChatMsg) (fallbackText : String) :
    List ChatMsg :=
  history ++ [⟨"user", attemptedUtterance speechText⟩, ⟨"model", fallbackText⟩]

/-- Shallow embedding of generateLlmResponse, parametric in whether
GOOGLE_API_KEY is present and in the chat-exchange oracle. JavaScript
truthiness of the optional-chain text and of blockReason (the empty
string is falsy) is modelled explicitly. -/
def generateLlmResponse (apiKeyPresent : Bool) (outcome : ChatOutcome)
    (speechText : String) (history : List ChatMsg) : LlmResult :=
  if apiKeyPresent = false then
    let fallbackText := "An internal configuration error occurred. HANGUPNOW"
    ⟨fallbackText, fallbackHistory speechText history fallbackText⟩
  else
    match outcome with
    | .apiThrow =>
      let fallbackText := REFUSAL_MSG ++ " HANGUPNOW"
      ⟨fallbackText, fallbackHistory speechText history fallbackText⟩
    | .apiOk extractedText blockReason chatHistory =>
      let raw :=
        match extractedText with
        | some t =>
          if t ≠ "" then t
          else
            match blockReason with
            | some b =>
              if b ≠ "" && b ≠ "STOP" && b ≠ "MAX_TOKENS" then REFUSAL_MSG ++ " HANGUPNOW"
              else "I encountered an issue interpreting the response. HANGUPNOW"
            | none => "I encountered an issue interpreting the response. HANGUPNOW"
        | none =>
          match blockReason with
          | some b =>
            if b ≠ "" && b ≠ "STOP" && b ≠ "MAX_TOKENS" then REFUSAL_MSG ++ " HANGUPNOW"
            else "I encountered an issue interpreting the response. HANGUPNOW"
          | none => "I encountered an issue interpreting the response. HANGUPNOW"
      ⟨jsTrim raw, chatHistory⟩

/-- Internal-failure predicate of the claim: missing API key, thrown API
error, or a delivered response with no (truthy) candidate text. -/
def llmInternalFailure (apiKeyPresent : Bool) (outcome : ChatOutcome) : Prop :=
  apiKeyPresent = false ∨ outcome = .apiThrow ∨
    (∃ b ch, outcome = .apiOk none b ch) ∨ (∃ b ch, outcome = .apiOk (some "") b ch)

/-! ## The transcription bridge (src/src/websocketHandler.js) -/

/-- The Deepgram Transcript event handler (websocketHandler.js lines
134-147): a final fragment is appended to the accumulator as
`fragment + " "` when it is truthy and its trim is non-empty; interim
fragments leave the accumulator unchanged. -/
def onTranscriptEvent (acc : String) (isFinal : Bool) (fragment : String) : String :=
  if isFinal then
    if fragment ≠ "" && jsTrim fragment ≠ "" then acc ++ fragment ++ " " else acc
  else acc

/-- Accumulated transcript after a sequence of (is_final, fragment)
Deepgram Transcript events, starting from the empty accumulator. -/
def accumulateTranscript (evs : List (Bool × String)) : String :=
  evs.foldl (fun acc e => onTranscriptEvent acc e.1 e.2) ""

/-- The structured record logged once at Deepgram session close
(websocketHandler.js lines 75-99). -/
structure TranscriptLog where
  event : String
  streamSid : String
  transcript : String
deriving DecidableEq, Repr

/-- The Deepgram Close handler: flushes the trimmed accumulator as one
`deepgram_transcript_final` record. -/
def onDeepgramClose (acc : String) (streamSid : String) : TranscriptLog :=
  ⟨"deepgram_transcript_final", streamSid, jsTrim acc⟩

/-- Per-connection state of the media-stream bridge. -/
structure WsState where
  callSid : String
  streamSid : String
deriving DecidableEq, Repr

/-- Initial bridge state: the placeholder identifiers used until a
`start` message arrives (websocketHandler.js lines 59-63). -/
def initialWsState : WsState :=
  ⟨"unknown_callsid_ws", "unknown_streamsid_ws"⟩

/-- A parsed inbound Twilio media-stream message, by its `event`
discriminator; optional fields model absent payload members. -/
inductive TwilioMsg where
  | connected
  | start (callSid : Option String) (streamSid : Option String)
  | media (payload : Option String)
  | stop (streamSid : Option String)
  | other (event : String)
deriving DecidableEq, Repr

/-- Observable side effects of one inbound message. `forwardAudio`
models `deepgramConnection.send`, `finalizeDg` models
`deepgramConnection.finalize()`, `closeWs` models `ws.close`, and the
two log constructors model logToFirebase / logErrorToFirebase keyed by
CallSid. -/
inductive WsEffect where
  | forwardAudio (payloadB64 : String)
  | finalizeDg
  | closeWs
  | fbLog (sid : String) (event : String)
  | fbLogError (sid : String) (msg : String)
deriving DecidableEq, Repr

/-- True exactly on audio-forwarding effects. -/
def WsEffect.isForward : WsEffect → Bool
  | .forwardAudio _ => true
  | _ => false

/-- True exactly on connection-closing effects. -/
def WsEffect.isClose : WsEffect → Bool
  | .closeWs => true
  | _ => false

/-- True exactly on error-log effects. -/
def WsEffect.isErrorLog : WsEffect → Bool
  | .fbLogError _ _ => true
  | _ => false

/-- Shallow embedding of the WebSocket message-event handler
(websocketHandler.js lines 189-347). `parsed = none` models a payload JSON.parse throws on:
control jumps to the catch block, which logs one processing error keyed
by the current callSid and returns. `dgReady` models
`deepgramConnection.getReadyState() === 1`. Returns the successor state
and the emitted effects. -/
def onWsMessage (st : WsState) (dgReady : Bool) (parsed : Option TwilioMsg) :
    WsState × List WsEffect :=
  match parsed with
  | none =>
    (st, [.fbLogError st.callSid "Error processing WebSocket message"])
  | some m =>
    match m with
    | .connected => (st, [])
    | .start c s =>
      match c, s with
      | some c, some s => (⟨c, s⟩, [.fbLog c "twilio_stream_start"])
      | _, _ =>
        (st, [.fbLogError st.callSid "Received start event without callSid/streamSid"])
    | .media p =>
      match p with
      | some payload =>
        if dgReady then (st, [.forwardAudio payload]) else (st, [])
      | none =>
        (st, [.fbLogError st.callSid "Received media event without payload"])
    | .stop _ =>
      (st, [.fbLog st.callSid "twilio_stream_stop"] ++ if dgReady then [.finalizeDg] else [])
    | .other _ => (st, [])

/-! ## Shared lemmas about the embedded definitions -/

theorem getHist_delHist (hs : CallHistories) (sid : String) :
    getHist (delHist hs sid) sid = none := by
  induction hs with
  | nil => rfl
  | cons p rest ih =>
    rcases p with ⟨k, v⟩
    by_cases h : k = sid
    · simpa [delHist, List.filter_cons, h] using ih
    · simpa [delHist, List.filter_cons, h, getHist] using ih

theorem getHist_setHist (hs : CallHistories) (sid : String) (h : List ChatMsg) :
    getHist (setHist hs sid h) sid = some h := by
  simp [setHist, getHist]

theorem fcm_ne_empty : FINAL_CLOSING_MESSAGE ≠ "" := by decide

theorem jsIncludes_empty_sentinel : jsIncludes "" "HANGUPNOW" = false := by decide

theorem spokenCandidate_limit (t : String) (n : Nat) (h : MAX_CONVERSATION_TURNS ≤ n) :
    spokenCandidate t n = (FINAL_CLOSING_MESSAGE, true) := by
  unfold spokenCandidate
  rw [if_pos h]

theorem spokenCandidate_sentinel (t : String) (n : Nat) (hn : n < MAX_CONVERSATION_TURNS)
    (hinc : jsIncludes t "HANGUPNOW" = true) :
    spokenCandidate t n = (jsTrim (jsReplaceFirst t "HANGUPNOW" ""), true) := by
  have ht : t ≠ "" := by
    intro he
    rw [he, jsIncludes_empty_sentinel] at hinc
    exact absurd hinc (by decide)
  unfold spokenCandidate
  rw [if_neg (not_le.mpr hn), if_pos (by simp [ht, hinc])]

theorem spokenCandidate_continue (t : String) (n : Nat) (hn : n < MAX_CONVERSATION_TURNS)
    (hinc : jsIncludes t "HANGUPNOW" = false) :
    spokenCandidate t n = (t, false) := by
  unfold spokenCandidate
  rw [if_neg (not_le.mpr hn), if_neg (by simp [hinc])]

theorem decideSpoken_limit (t : String) (n : Nat) (h : MAX_CONVERSATION_TURNS ≤ n) :
    decideSpoken t n = (FINAL_CLOSING_MESSAGE, true) := by
  simp [decideSpoken, spokenCandidate_limit t n h, fcm_ne_empty]

theorem decideSpoken_sentinel (t : String) (n : Nat) (hn : n < MAX_CONVERSATION_TURNS)
    (hinc : jsIncludes t "HANGUPNOW" = true) :
    decideSpoken t n =
      (if jsTrim (jsReplaceFirst t "HANGUPNOW" "") = "" then "Okay. Thank you, goodbye."
       else jsTrim (jsReplaceFirst t "HANGUPNOW" ""), true) := by
  simp only [decideSpoken, spokenCandidate_sentinel t n hn hinc]
  by_cases hz : jsTrim (jsReplaceFirst t "HANGUPNOW" "") = ""
  · simp [hz, ite_self]
  · simp [hz]

theorem decideSpoken_continue (t : String) (n : Nat) (hn : n < MAX_CONVERSATION_TURNS)
    (hinc : jsIncludes t "HANGUPNOW" = false) :
    (decideSpoken t n).2 = false ∧ (decideSpoken t n).1 ≠ "" := by
  have ht : t ≠ "HANGUPNOW" := by
    intro he
    rw [he] at hinc
    exact absurd hinc (by decide)
  simp only [decideSpoken, spokenCandidate_continue t n hn hinc]
  by_cases hz : t = ""
  · subst hz
    simp [ht]
  · simp [hz]

theorem buildDirective_of_ne (t : String) (n : Nat) (tts : String → Option String)
    (h1 : (decideSpoken t n).1 ≠ "") :
    buildDirective t n tts =
      .respond (decideSpoken t n).1 (tts (decideSpoken t n).1) (decideSpoken t n).2 := by
  simp only [buildDirective]
  rw [if_pos h1]
  cases htts : tts (decideSpoken t n).1 with
  | none => simp [h1]
  | some url => simp

theorem buildDirective_not_retry (t : String) (n : Nat) (tts : String → Option String) :
    (buildDirective t n tts).isRetry = false := by
  simp only [buildDirective]
  split
  · rfl
  · split <;> rfl

theorem generateBranch_eq (llm : String → List ChatMsg → LlmResult)
    (tts : String → Option String) (hs : CallHistories) (sid s : String) :
    generateBranch llm tts hs sid s =
      (buildDirective (llm s ((getHist hs sid).getD [])).llmText
         (((getHist hs sid).getD []).length / 2 + 1) tts,
       if (buildDirective (llm s ((getHist hs sid).getD [])).llmText
             (((getHist hs sid).getD []).length / 2 + 1) tts).hangs = true then
         delHist (setHist hs sid (llm s ((getHist hs sid).getD [])).updatedHistory) sid
       else setHist hs sid (llm s ((getHist hs sid).getD [])).updatedHistory) := rfl

theorem handleSpeech_of_guard_false (llm : String → List ChatMsg → LlmResult)
    (tts : String → Option String) (hs : CallHistories) (sid s q : String)
    (h : retryGuard s q = false) :
    handleSpeech llm tts hs sid s q =
      generateBranch llm tts hs sid (speechForLlm s q) := by
  simp [handleSpeech, h]

set_option maxRecDepth 8192 in
theorem inc_cfg_sentinel :
    jsIncludes "An internal configuration error occurred. HANGUPNOW" "HANGUPNOW" = true := by
  decide

set_option maxRecDepth 8192 in
theorem inc_refusal_sentinel :
    jsIncludes (REFUSAL_MSG ++ " HANGUPNOW") "HANGUPNOW" = true := by
  decide

set_option maxRecDepth 8192 in
theorem inc_refusal_trim_sentinel :
    jsIncludes (jsTrim (REFUSAL_MSG ++ " HANGUPNOW")) "HANGUPNOW" = true := by
  decide

set_option maxRecDepth 8192 in
theorem inc_issue_sentinel :
    jsIncludes (jsTrim "I encountered an issue interpreting the response. HANGUPNOW")
      "HANGUPNOW" = true := by
  decide

theorem retryGuard_of_speech (s q : String) (hsne : s ≠ "") : retryGuard s q = false := by
  simp [retryGuard, hsne]

theorem speechForLlm_of_speech (s q : String) (hsne : s ≠ "") : speechForLlm s q = s := by
  simp [speechForLlm, hsne]

theorem handleSpeech_continue (llm : String → List ChatMsg → LlmResult)
    (tts : String → Option String) (hs : CallHistories) (sid s q : String)
    (hsne : s ≠ "")
    (hnh : jsIncludes (llm s ((getHist hs sid).getD [])).llmText "HANGUPNOW" = false)
    (hturn : turnNumberOf hs sid < MAX_CONVERSATION_TURNS) :
    (handleSpeech llm tts hs sid s q).2 =
      setHist hs sid (llm s ((getHist hs sid).getD [])).updatedHistory := by
  rw [handleSpeech_of_guard_false _ _ _ _ _ _ (retryGuard_of_speech s q hsne),
      speechForLlm_of_speech s q hsne, generateBranch_eq]
  have hturn' : ((getHist hs sid).getD []).length / 2 + 1 < MAX_CONVERSATION_TURNS := hturn
  obtain ⟨h2, h1⟩ :=
    decideSpoken_continue (llm s ((getHist hs sid).getD [])).llmText _ hturn' hnh
  rw [buildDirective_of_ne _ _ _ h1]
  simp [Directive.hangs, h2]

theorem runTurns_histLen (llm : String → List ChatMsg → LlmResult)
    (tts : String → Option String) (sid : String) (sp : Nat → String) (hs0 : CallHistories)
    (hfresh : getHist hs0 sid = none)
    (hlen : ∀ s h, ((llm s h).updatedHistory).length = h.length + 2)
    (hnh : ∀ s h, jsIncludes (llm s h).llmText "HANGUPNOW" = false)
    (hsp : ∀ i, sp i ≠ "") :
    ∀ k, k + 1 ≤ MAX_CONVERSATION_TURNS →
      ((getHist (runTurns llm tts sid sp k hs0) sid).getD []).length = 2 * k := by
  intro k
  induction k with
  | zero =>
    intro _
    simp [runTurns, hfresh]
  | succ k ih =>
    intro hk1
    have hk : k + 1 ≤ MAX_CONVERSATION_TURNS := by omega
    have hlk := ih hk
    have hturn : turnNumberOf (runTurns llm tts sid sp k hs0) sid < MAX_CONVERSATION_TURNS := by
      simp only [turnNumberOf, hlk]
      simp only [MAX_CONVERSATION_TURNS] at hk1 ⊢
      omega
    simp only [runTurns]
    rw [handleSpeech_continue llm tts _ sid (sp k) "0" (hsp k) (hnh _ _) hturn]
    rw [getHist_setHist]
    simp only [Option.getD_some, hlen, hlk]
    omega

/-! ## Claim theorems -/

/-- C1: with empty speech and a parsed retry counter strictly below
MAX_RETRIES, /handle-speech answers a retry directive carrying counter
r + 1 and leaves the history map untouched, with a value independent of
the generative-text and TTS oracles (the collaborator is not consulted);
once the counter has reached MAX_RETRIES the answer is no longer a retry
directive, so repeated empty-speech calls starting at 0 get exactly
MAX_RETRIES retry directives before generation. -/
theorem c1_retry_bound (llm : String → List ChatMsg → LlmResult)
    (tts : String → Option String) (hs : CallHistories) (sid q : String) (r : Int)
    (hq : effRetry q = some r) :
    (r < MAX_RETRIES →
      handleSpeech llm tts hs sid "" q =
        (Directive.retry (r + 1)
          "Sorry, I didn\x27t hear anything. Could you please repeat that?", hs)) ∧
    (MAX_RETRIES ≤ r →
      (handleSpeech llm tts hs sid "" q).1.isRetry = false) := by
  constructor
  · intro hr
    have hguard : retryGuard "" q = true := by simp [retryGuard, hq, hr]
    simp [handleSpeech, hguard, hq]
  · intro hr
    have hguard : retryGuard "" q = false := by
      simp only [retryGuard, hq]
      simp [MAX_RETRIES] at hr ⊢
      omega
    rw [handleSpeech_of_guard_false llm tts hs sid "" q hguard, generateBranch_eq]
    exact buildDirective_not_retry _ _ _

/-- Witness for C1 at retry counter 0 parsed from the query string "0". -/
theorem c1_retry_bound_witness :
    effRetry "0" = some 0 ∧
    (((0 : Int) < MAX_RETRIES →
      handleSpeech (fun s h => ⟨s, h⟩) (fun _ => none) [] "CA1" "" "0" =
        (Directive.retry (0 + 1)
          "Sorry, I didn\x27t hear anything. Could you please repeat that?", [])) ∧
    (MAX_RETRIES ≤ (0 : Int) →
      (handleSpeech (fun s h => ⟨s, h⟩) (fun _ => none) [] "CA1" "" "0").1.isRetry = false)) :=
  ⟨by decide, c1_retry_bound (fun s h => ⟨s, h⟩) (fun _ => none) [] "CA1" "0" 0 (by decide)⟩

/-- C6 (amended): on an uncaught failure the /handle-speech catch block
answers the apology-terminate directive and deletes the history entry
for the call, so the entry is not left orphaned. -/
theorem c6_catch_deletes_history (hs : CallHistories) (sid : String) :
    getHist (handleSpeechCatchBlock hs sid).2 sid = none ∧
    (handleSpeechCatchBlock hs sid).1 =
      Directive.respond
        "I encountered an unexpected problem. Apologies. Please call back later. Goodbye."
        none true :=
  ⟨getHist_delHist hs sid, rfl⟩

/-- C6 counterexample: a call with stored history goes through the
failure path and its entry is deleted, contradicting the claim that the
failure path leaves the entry orphaned in the map. -/
theorem c6_counterexample :
    getHist [("CA1", [(⟨"user", "hi"⟩ : ChatMsg)])] "CA1" = some [⟨"user", "hi"⟩] ∧
    getHist (handleSpeechCatchBlock [("CA1", [(⟨"user", "hi"⟩ : ChatMsg)])] "CA1").2 "CA1" =
      none := by decide

/-- C8 (amended): a final fragment whose trimmed text is non-empty is
appended to the accumulator as fragment plus a trailing space, interim
fragments never change the accumulator, and for the final fragments
"A. " then "B." the session-close record carries the trimmed transcript
"A.  B." with the double space preserved. -/
theorem c8_transcript_accumulation (acc f : String) (hf : jsTrim f ≠ "") :
    onTranscriptEvent acc true f = acc ++ f ++ " " ∧
    (∀ a g, onTranscriptEvent a false g = a) ∧
    onDeepgramClose (accumulateTranscript [(true, "A. "), (true, "B.")]) "S1" =
      ⟨"deepgram_transcript_final", "S1", "A.  B."⟩ := by
  have hne : f ≠ "" := by
    intro he
    rw [he] at hf
    exact hf (by decide)
  refine ⟨?_, fun a g => rfl, by decide⟩
  simp [onTranscriptEvent, hne, hf]

/-- Witness for C8 on the fragment "A." appended to the accumulator "x ". -/
theorem c8_transcript_accumulation_witness :
    jsTrim "A." ≠ "" ∧
    (onTranscriptEvent "x " true "A." = "x " ++ "A." ++ " " ∧
     (∀ a g, onTranscriptEvent a false g = a) ∧
     onDeepgramClose (accumulateTranscript [(true, "A. "), (true, "B.")]) "S1" =
       ⟨"deepgram_transcript_final", "S1", "A.  B."⟩) :=
  ⟨by decide, c8_transcript_accumulation "x " "A." (by decide)⟩

/-- C8 counterexample: the whitespace-only fragment " " is final and
non-empty, yet the Transcript handler drops it instead of appending
fragment plus a space, because the code requires a non-empty trimmed
text. -/
theorem c8_counterexample :
    (" " : String) ≠ "" ∧ onTranscriptEvent "" true " " = "" ∧
    onTranscriptEvent "" true " " ≠ "" ++ " " ++ " " := by decide

/-- C9: an inbound message whose payload fails JSON parsing makes the
bridge emit exactly one processing-error log keyed by the current
callSid, forward no audio, close nothing, and leave the per-connection
state unchanged; before any start message that callSid is the
"unknown_callsid_ws" placeholder. -/
theorem c9_malformed_message (st : WsState) (dg : Bool) :
    onWsMessage st dg none =
      (st, [WsEffect.fbLogError st.callSid "Error processing WebSocket message"]) ∧
    ((onWsMessage st dg none).2.filter WsEffect.isForward = [] ∧
     (onWsMessage st dg none).2.filter WsEffect.isClose = [] ∧
     ((onWsMessage st dg none).2.filter WsEffect.isErrorLog).length = 1) ∧
    initialWsState.callSid = "unknown_callsid_ws" :=
  ⟨rfl, ⟨rfl, rfl, rfl⟩, rfl⟩

/-- C10: when the retry query string is non-empty and parseInt yields
NaN, both retry comparisons are false, so even with empty speech the
handler issues no retry directive and proceeds directly to generation
with the plain no-speech sentinel. -/
theorem c10_nan_retry (llm : String → List ChatMsg → LlmResult)
    (tts : String → Option String) (hs : CallHistories) (sid q : String)
    (hq : q ≠ "") (hnan : parseIntJs q = none) :
    (handleSpeech llm tts hs sid "" q).1.isRetry = false ∧
    handleSpeech llm tts hs sid "" q =
      generateBranch llm tts hs sid "[No speech detected]" := by
  have heff : effRetry q = none := by simp [effRetry, hq, hnan]
  have hguard : retryGuard "" q = false := by simp [retryGuard, heff]
  have hsp : speechForLlm "" q = "[No speech detected]" := by simp [speechForLlm, heff]
  refine ⟨?_, ?_⟩
  · rw [handleSpeech_of_guard_false llm tts hs sid "" q hguard, hsp, generateBranch_eq]
    exact buildDirective_not_retry _ _ _
  · rw [handleSpeech_of_guard_false llm tts hs sid "" q hguard, hsp]

/-- C2: whenever an invocation reaches the generation step with the turn
number at or above MAX_CONVERSATION_TURNS, the answer is a terminate
directive speaking exactly FINAL_CLOSING_MESSAGE, whatever text the
generative collaborator returned, and the history entry is deleted. -/
theorem c2_turn_limit (llm : String → List ChatMsg → LlmResult)
    (tts : String → Option String) (hs : CallHistories) (sid s q : String)
    (hgen : retryGuard s q = false)
    (hturn : MAX_CONVERSATION_TURNS ≤ turnNumberOf hs sid) :
    handleSpeech llm tts hs sid s q =
      (Directive.respond FINAL_CLOSING_MESSAGE (tts FINAL_CLOSING_MESSAGE) true,
       delHist (setHist hs sid
         (llm (speechForLlm s q) ((getHist hs sid).getD [])).updatedHistory) sid) := by
  rw [handleSpeech_of_guard_false _ _ _ _ _ _ hgen, generateBranch_eq]
  have hturn' : MAX_CONVERSATION_TURNS ≤ ((getHist hs sid).getD []).length / 2 + 1 := hturn
  have hds := decideSpoken_limit
    (llm (speechForLlm s q) ((getHist hs sid).getD [])).llmText
    (((getHist hs sid).getD []).length / 2 + 1) hturn'
  have h1 : (decideSpoken (llm (speechForLlm s q) ((getHist hs sid).getD [])).llmText
      (((getHist hs sid).getD []).length / 2 + 1)).1 ≠ "" := by
    rw [hds]
    exact fcm_ne_empty
  rw [buildDirective_of_ne _ _ _ h1, hds]
  simp [Directive.hangs]

/-- Witness for C2 on a call whose stored history has 18 records, so the
computed turn number is 10. -/
theorem c2_turn_limit_witness :
    retryGuard "hi" "0" = false ∧
    MAX_CONVERSATION_TURNS ≤
      turnNumberOf [("CA1", List.replicate 18 (⟨"user", "x"⟩ : ChatMsg))] "CA1" ∧
    handleSpeech (fun _ h => ⟨"ok", h⟩) (fun _ => none)
        [("CA1", List.replicate 18 (⟨"user", "x"⟩ : ChatMsg))] "CA1" "hi" "0" =
      (Directive.respond FINAL_CLOSING_MESSAGE none true,
       delHist (setHist [("CA1", List.replicate 18 (⟨"user", "x"⟩ : ChatMsg))] "CA1"
         (List.replicate 18 (⟨"user", "x"⟩ : ChatMsg))) "CA1") :=
  ⟨by decide, by decide,
   c2_turn_limit (fun _ h => ⟨"ok", h⟩) (fun _ => none)
     [("CA1", List.replicate 18 (⟨"user", "x"⟩ : ChatMsg))] "CA1" "hi" "0"
     (by decide) (by decide)⟩

/-- C3 (amended): below the turn limit, a collaborator text containing
the HANGUPNOW sentinel yields a terminate directive whose spoken text is
the collaborator text with its first occurrence of HANGUPNOW removed and
trimmed, or the fixed goodbye fallback when that is empty; with several
sentinel occurrences the spoken text can still contain HANGUPNOW, since
the code strips only the first occurrence. -/
theorem c3_sentinel_strip (llm : String → List ChatMsg → LlmResult)
    (tts : String → Option String) (hs : CallHistories) (sid s q : String)
    (hgen : retryGuard s q = false)
    (hturn : turnNumberOf hs sid < MAX_CONVERSATION_TURNS)
    (hinc : jsIncludes (llm (speechForLlm s q) ((getHist hs sid).getD [])).llmText
      "HANGUPNOW" = true) :
    (handleSpeech llm tts hs sid s q).1.hangs = true ∧
    (handleSpeech llm tts hs sid s q).1.spoken =
      (if jsTrim (jsReplaceFirst
            (llm (speechForLlm s q) ((getHist hs sid).getD [])).llmText "HANGUPNOW" "") = ""
       then "Okay. Thank you, goodbye."
       else jsTrim (jsReplaceFirst
            (llm (speechForLlm s q) ((getHist hs sid).getD [])).llmText "HANGUPNOW" "")) := by
  rw [handleSpeech_of_guard_false _ _ _ _ _ _ hgen, generateBranch_eq]
  have hturn' : ((getHist hs sid).getD []).length / 2 + 1 < MAX_CONVERSATION_TURNS := hturn
  have hds := decideSpoken_sentinel
    (llm (speechForLlm s q) ((getHist hs sid).getD [])).llmText
    (((getHist hs sid).getD []).length / 2 + 1) hturn' hinc
  have h1 : (decideSpoken (llm (speechForLlm s q) ((getHist hs sid).getD [])).llmText
      (((getHist hs sid).getD []).length / 2 + 1)).1 ≠ "" := by
    rw [hds]
    by_cases hz : jsTrim (jsReplaceFirst
        (llm (speechForLlm s q) ((getHist hs sid).getD [])).llmText "HANGUPNOW" "") = ""
    · simp [hz]
    · simp [hz]
  rw [buildDirective_of_ne _ _ _ h1, hds]
  exact ⟨rfl, rfl⟩

/-- Witness for C3 on a collaborator text with a single sentinel. -/
theorem c3_sentinel_strip_witness :
    retryGuard "hi" "0" = false ∧
    turnNumberOf [] "CA1" < MAX_CONVERSATION_TURNS ∧
    jsIncludes "Bye. HANGUPNOW" "HANGUPNOW" = true ∧
    ((handleSpeech (fun _ _ => ⟨"Bye. HANGUPNOW", []⟩) (fun _ => none)
        [] "CA1" "hi" "0").1.hangs = true ∧
     (handleSpeech (fun _ _ => ⟨"Bye. HANGUPNOW", []⟩) (fun _ => none)
        [] "CA1" "hi" "0").1.spoken =
      (if jsTrim (jsReplaceFirst "Bye. HANGUPNOW" "HANGUPNOW" "") = ""
       then "Okay. Thank you, goodbye."
       else jsTrim (jsReplaceFirst "Bye. HANGUPNOW" "HANGUPNOW" ""))) :=
  ⟨by decide, by decide, by decide,
   c3_sentinel_strip (fun _ _ => ⟨"Bye. HANGUPNOW", []⟩) (fun _ => none)
     [] "CA1" "hi" "0" (by decide) (by decide) (by decide)⟩

/-- C3 counterexample: when the collaborator text is the double sentinel
HANGUPNOWHANGUPNOW, only the first occurrence is removed; the terminate
directive speaks "HANGUPNOW", so the spoken text does contain the
literal sentinel, contrary to the claim. -/
theorem c3_counterexample :
    jsIncludes "HANGUPNOWHANGUPNOW" "HANGUPNOW" = true ∧
    (handleSpeech (fun _ _ => ⟨"HANGUPNOWHANGUPNOW", []⟩) (fun _ => none)
        [] "CA1" "hi" "0").1 = Directive.respond "HANGUPNOW" none true ∧
    jsIncludes ((handleSpeech (fun _ _ => ⟨"HANGUPNOWHANGUPNOW", []⟩) (fun _ => none)
        [] "CA1" "hi" "0").1.spoken) "HANGUPNOW" = true := by decide

/-- C4: the turn number is Math.floor of half the stored history length
plus one (with empty history on lookup miss), so for a fresh call and a
collaborator that appends exactly the attempted exchange (two records
per call) without requesting hangup, k completed non-retry turns within
the turn limit leave the turn number at k + 1; silence retries do not
change the stored histories, hence do not change the turn number. -/
theorem c4_turn_monotonicity (llm : String → List ChatMsg → LlmResult)
    (tts : String → Option String) (sid : String) (sp : Nat → String)
    (hs0 hsR : CallHistories) (q : String) (r : Int)
    (hfresh : getHist hs0 sid = none)
    (hlen : ∀ s h, ((llm s h).updatedHistory).length = h.length + 2)
    (hnh : ∀ s h, jsIncludes (llm s h).llmText "HANGUPNOW" = false)
    (hsp : ∀ i, sp i ≠ "")
    (k : Nat) (hk : k + 1 ≤ MAX_CONVERSATION_TURNS)
    (hq : effRetry q = some r) (hr : r < MAX_RETRIES) :
    turnNumberOf (runTurns llm tts sid sp k hs0) sid = k + 1 ∧
    (handleSpeech llm tts hsR sid "" q).2 = hsR := by
  constructor
  · have hlk := runTurns_histLen llm tts sid sp hs0 hfresh hlen hnh hsp k hk
    simp only [turnNumberOf, hlk]
    omega
  · have hguard : retryGuard "" q = true := by simp [retryGuard, hq, hr]
    simp [handleSpeech, hguard]

/-- Witness for C4 with a two-record-appending collaborator, two
completed turns, and a silence retry at counter 0. -/
theorem c4_turn_monotonicity_witness :
    getHist ([] : CallHistories) "CA1" = none ∧
    (∀ (s : String) (h : List ChatMsg),
      (h ++ [(⟨"user", s⟩ : ChatMsg), ⟨"model", "ok"⟩]).length = h.length + 2) ∧
    jsIncludes "ok" "HANGUPNOW" = false ∧
    ("hi" : String) ≠ "" ∧
    2 + 1 ≤ MAX_CONVERSATION_TURNS ∧ effRetry "0" = some 0 ∧ (0 : Int) < MAX_RETRIES ∧
    (turnNumberOf
        (runTurns (fun s h => ⟨"ok", h ++ [⟨"user", s⟩, ⟨"model", "ok"⟩]⟩) (fun _ => none)
          "CA1" (fun _ => "hi") 2 []) "CA1" = 2 + 1 ∧
     (handleSpeech (fun s h => ⟨"ok", h ++ [⟨"user", s⟩, ⟨"model", "ok"⟩]⟩) (fun _ => none)
        [("CA2", [])] "CA1" "" "0").2 = [("CA2", [])]) := by
  refine ⟨rfl, fun s h => by simp, by decide, by decide, by decide, by decide, by decide, ?_⟩
  have h9 := c4_turn_monotonicity (fun s h => ⟨"ok", h ++ [⟨"user", s⟩, ⟨"model", "ok"⟩]⟩)
    (fun _ => none) "CA1" (fun _ => "hi") [] [("CA2", [])] "0" 0
    rfl (fun s h => by simp) (fun s h => rfl) (fun i => by simp)
    2 (by decide) (by decide) (by decide)
  exact h9

/-- C5: whenever /handle-speech answers a directive with the hangup flag
set, the history entry of the call has been deleted, so the next
invocation for the same CallSid finds no history and computes turn
number 1. -/
theorem c5_hangup_clears (llm : String → List ChatMsg → LlmResult)
    (tts : String → Option String) (hs : CallHistories) (sid s q : String)
    (hHang : (handleSpeech llm tts hs sid s q).1.hangs = true) :
    getHist (handleSpeech llm tts hs sid s q).2 sid = none ∧
    turnNumberOf (handleSpeech llm tts hs sid s q).2 sid = 1 := by
  by_cases hg : retryGuard s q = true
  · exfalso
    simp [handleSpeech, hg, Directive.hangs] at hHang
  · rw [Bool.not_eq_true] at hg
    rw [handleSpeech_of_guard_false _ _ _ _ _ _ hg, generateBranch_eq] at hHang ⊢
    simp only at hHang
    simp only [hHang, if_pos]
    exact ⟨getHist_delHist _ _, by simp [turnNumberOf, getHist_delHist]⟩

/-- Witness for C5 on a turn where the collaborator requests hangup. -/
theorem c5_hangup_clears_witness :
    (handleSpeech (fun _ _ => ⟨"Goodbye. HANGUPNOW", []⟩) (fun _ => none)
        [("CA1", [(⟨"user", "a"⟩ : ChatMsg)])] "CA1" "hi" "0").1.hangs = true ∧
    (getHist (handleSpeech (fun _ _ => ⟨"Goodbye. HANGUPNOW", []⟩) (fun _ => none)
        [("CA1", [(⟨"user", "a"⟩ : ChatMsg)])] "CA1" "hi" "0").2 "CA1" = none ∧
     turnNumberOf (handleSpeech (fun _ _ => ⟨"Goodbye. HANGUPNOW", []⟩) (fun _ => none)
        [("CA1", [(⟨"user", "a"⟩ : ChatMsg)])] "CA1" "hi" "0").2 "CA1" = 1) :=
  ⟨by decide,
   c5_hangup_clears (fun _ _ => ⟨"Goodbye. HANGUPNOW", []⟩) (fun _ => none)
     [("CA1", [(⟨"user", "a"⟩ : ChatMsg)])] "CA1" "hi" "0" (by decide)⟩

/-- C7 (amended): generateLlmResponse is total, and on each internal
failure its llmText is a fixed apology or refusal containing the
HANGUPNOW sentinel; on the missing-API-key and thrown-error paths the
returned history is the input history extended with the attempted user
utterance and the fallback model reply, while on a delivered but
unparseable response the returned history is whatever the chat session
reports, not the locally constructed fallback. -/
theorem c7_llm_failure (key : Bool) (outcome : ChatOutcome) (s : String) (h : List ChatMsg)
    (hfail : llmInternalFailure key outcome) :
    jsIncludes (generateLlmResponse key outcome s h).llmText "HANGUPNOW" = true ∧
    (key = false →
      generateLlmResponse key outcome s h =
        ⟨"An internal configuration error occurred. HANGUPNOW",
         fallbackHistory s h "An internal configuration error occurred. HANGUPNOW"⟩) ∧
    (key = true → outcome = ChatOutcome.apiThrow →
      generateLlmResponse key outcome s h =
        ⟨REFUSAL_MSG ++ " HANGUPNOW", fallbackHistory s h (REFUSAL_MSG ++ " HANGUPNOW")⟩) ∧
    (key = true → ∀ t b ch, outcome = ChatOutcome.apiOk t b ch →
      (generateLlmResponse key outcome s h).updatedHistory = ch) := by
  refine ⟨?_, ?_, ?_, ?_⟩
  · cases key with
    | false => exact inc_cfg_sentinel
    | true =>
      cases outcome with
      | apiThrow => exact inc_refusal_sentinel
      | apiOk t b ch =>
        have ht : t = none ∨ t = some "" := by
          rcases hfail with hk | hth | ⟨b', ch', he⟩ | ⟨b', ch', he⟩
          · exact absurd hk (by simp)
          · exact absurd hth (by simp)
          · cases he
            exact Or.inl rfl
          · cases he
            exact Or.inr rfl
        rcases ht with ht | ht <;> subst ht <;>
          · simp only [generateLlmResponse]
            cases b with
            | none => exact inc_issue_sentinel
            | some b' =>
              by_cases hb : (b' ≠ "" && b' ≠ "STOP" && b' ≠ "MAX_TOKENS") = true
              · simp only [hb, if_pos, if_true]
                exact inc_refusal_trim_sentinel
              · rw [Bool.not_eq_true] at hb
                simp only [hb]
                exact inc_issue_sentinel
  · intro hk
    subst hk
    rfl
  · intro hk ho
    subst hk
    subst ho
    rfl
  · intro hk t b ch ho
    subst hk
    subst ho
    cases t with
    | none => rfl
    | some t' =>
      by_cases ht : t' = ""
      · subst ht
        rfl
      · simp [generateLlmResponse, ht]

/-- Witness for C7 on the missing-API-key failure path. -/
theorem c7_llm_failure_witness :
    llmInternalFailure false ChatOutcome.apiThrow ∧
    (jsIncludes (generateLlmResponse false ChatOutcome.apiThrow "hi" []).llmText
        "HANGUPNOW" = true ∧
     (false = false →
       generateLlmResponse false ChatOutcome.apiThrow "hi" [] =
         ⟨"An internal configuration error occurred. HANGUPNOW",
          fallbackHistory "hi" [] "An internal configuration error occurred. HANGUPNOW"⟩) ∧
     (false = true → ChatOutcome.apiThrow = ChatOutcome.apiThrow →
       generateLlmResponse false ChatOutcome.apiThrow "hi" [] =
         ⟨REFUSAL_MSG ++ " HANGUPNOW", fallbackHistory "hi" [] (REFUSAL_MSG ++ " HANGUPNOW")⟩) ∧
     (false = true → ∀ t b ch, ChatOutcome.apiThrow = ChatOutcome.apiOk t b ch →
       (generateLlmResponse false ChatOutcome.apiThrow "hi" []).updatedHistory = ch)) :=
  ⟨Or.inl rfl, c7_llm_failure false ChatOutcome.apiThrow "hi" [] (Or.inl rfl)⟩

/-- C7 counterexample: on a delivered but unparseable Gemini response
(no candidate text), the returned llmText is the fixed apology with the
sentinel, but updatedHistory is the chat session history, which does not
extend the input history with the attempted utterance and the fallback
reply as the claim states. -/
theorem c7_counterexample :
    llmInternalFailure true (ChatOutcome.apiOk none none [(⟨"user", "hi"⟩ : ChatMsg)]) ∧
    (generateLlmResponse true (ChatOutcome.apiOk none none [⟨"user", "hi"⟩]) "hi"
        []).updatedHistory = [⟨"user", "hi"⟩] ∧
    (generateLlmResponse true (ChatOutcome.apiOk none none [⟨"user", "hi"⟩]) "hi"
        []).updatedHistory ≠
      fallbackHistory "hi" []
        (generateLlmResponse true (ChatOutcome.apiOk none none [⟨"user", "hi"⟩]) "hi"
          []).llmText :=
  ⟨Or.inr (Or.inr (Or.inl ⟨none, [⟨"user", "hi"⟩], rfl⟩)), by decide, by decide⟩

/-- Witness for C10 on the non-numeric retry query "abc". -/
theorem c10_nan_retry_witness :
    ("abc" : String) ≠ "" ∧ parseIntJs "abc" = none ∧
    ((handleSpeech (fun s h => ⟨s, h⟩) (fun _ => none) [] "CA1" "" "abc").1.isRetry = false ∧
     handleSpeech (fun s h => ⟨s, h⟩) (fun _ => none) [] "CA1" "" "abc" =
       generateBranch (fun s h => ⟨s, h⟩) (fun _ => none) [] "CA1" "[No speech detected]") :=
  ⟨by decide, by decide,
   c10_nan_retry (fun s h => ⟨s, h⟩) (fun _ => none) [] "CA1" "abc" (by decide) (by decide)⟩

end MedReminder
